import Mathlib

/-!
Shallow embedding of `src/backend/lambda/lambda_function.py` from
Satorien/slack_qa_summary.

The program is a single AWS Lambda handler that (1) fetches the latest
message of a fixed Slack channel, (2) asks a Bedrock model for a summary,
and (3) posts the formatted summary to a second channel.  The three
external services are modelled by an oracle (`World`) fixing the outcome
of each remote call; the handler itself is a pure function of that
oracle.  Alongside the result we record a `Trace` of the outgoing
requests (fetch parameters, the Bedrock prompt, the posted message), so
that claims of the form "step X is never called" and "the posted text is
exactly T" are statable.

Python-level details kept faithfully:
  * response bodies are produced with `json.dumps` on a string, which
    wraps the text in quote characters and escapes it (`json_dumps`);
  * `if not message_text:` treats both `None` and `""` as "no message";
  * `invoke_bedrock_model` returns the `text` field of the first content
    segment via `.get`, which can be `None`; interpolating it into the
    f-string then prints `None` (`py_str`).
-/

namespace SlackQaSummary

/-! ## Python `json.dumps` on a string value

`json.dumps` with its defaults (`ensure_ascii=True`) wraps the string in
quote characters, uses the short escapes for `"` `\` and the common
control characters, escapes remaining characters outside the printable
ASCII range `0x20`–`0x7e` as `\uXXXX` (lower-case hex), and splits
astral characters into surrogate pairs. -/

def hexDigit (n : Nat) : Char :=
  if n < 10 then Char.ofNat (48 + n) else Char.ofNat (87 + n)

def hex4 (n : Nat) : String :=
  String.mk [hexDigit (n / 4096 % 16), hexDigit (n / 256 % 16),
             hexDigit (n / 16 % 16), hexDigit (n % 16)]

def jsonEscapeChar (c : Char) : String :=
  if c = '"' then "\\\""
  else if c = '\\' then "\\\\"
  else if c = '\n' then "\\n"
  else if c = '\r' then "\\r"
  else if c = '\t' then "\\t"
  else if c.toNat = 8 then "\\b"
  else if c.toNat = 12 then "\\f"
  else if 32 ≤ c.toNat ∧ c.toNat ≤ 126 then String.singleton c
  else if c.toNat ≤ 65535 then "\\u" ++ hex4 c.toNat
  else "\\u" ++ hex4 (55296 + (c.toNat - 65536) / 1024) ++
       "\\u" ++ hex4 (56320 + (c.toNat - 65536) % 1024)

def jsonEscapeChars : List Char → List Char
  | [] => []
  | c :: cs => (jsonEscapeChar c).toList ++ jsonEscapeChars cs

def json_dumps (s : String) : String :=
  String.mk ('"' :: (jsonEscapeChars s.toList ++ ['"']))

/-- Python `str(x)` on an `Optional[str]`: `None` prints as `"None"`. -/
def py_str : Option String → String
  | none => "None"
  | some s => s

/-! ## External-service oracle -/

/-- One entry of the `messages` array of a `conversations_history`
response; only the `text` field is read by the program. -/
structure SlackMessage where
  text : String
deriving DecidableEq

/-- Outcome of the `slack_client.conversations_history` call. -/
inductive SlackHistoryResult where
  | ok (messages : List SlackMessage)
  | apiError (err : String)
deriving DecidableEq

/-- One entry of the `content` array of a decoded Bedrock response body;
`text` is `none` when the text key is absent (the code reads it with
`.get`, which returns `None` rather than raising). -/
structure BedrockContentSegment where
  text : Option String
deriving DecidableEq

/-- Decoded Bedrock response body; `content` is `none` when the content
key is absent (the code reads it with `.get`). -/
structure BedrockResponseBody where
  content : Option (List BedrockContentSegment)
deriving DecidableEq

/-- Outcome of `bedrock_runtime.invoke_model` followed by `json.loads`:
either a decoded body, or an exception (transport failure or a malformed,
undecodable response). -/
inductive BedrockOutcome where
  | ok (body : BedrockResponseBody)
  | raises (err : String)
deriving DecidableEq

/-- Outcome of the `slack_client.chat_postMessage` call. -/
inductive PostOutcome where
  | ok
  | apiError (err : String)
deriving DecidableEq

/-- Fixed outcomes of the three external calls during one invocation. -/
structure World where
  history : SlackHistoryResult
  bedrock : BedrockOutcome
  post : PostOutcome
deriving DecidableEq

/-! ## Requests sent to the external services -/

/-- Parameters of the `conversations_history` request. -/
structure HistoryRequest where
  channel : String
  limit : Nat
  inclusiveFlag : Bool
deriving DecidableEq

/-- Parameters of the `chat_postMessage` request. -/
structure PostRequest where
  channel : String
  text : String
deriving DecidableEq

/-! ## The three wrapper functions -/

/-- Function `get_latest_message_from_slack(channel_id)`: calls
`conversations_history(channel=channel_id, limit=1, inclusive=True)`;
returns the `text` of the first message if the `messages` list is
non-empty, `None` if it is empty, and re-raises a `SlackApiError`.
The first component is the request it sends. -/
def get_latest_message_from_slack (oracle : SlackHistoryResult)
    (channel_id : String) : HistoryRequest × Except String (Option String) :=
  (⟨channel_id, 1, true⟩,
    match oracle with
    | .apiError e => .error e
    | .ok [] => .ok none
    | .ok (m :: _) => .ok (some m.text))

/-- Function `invoke_bedrock_model(text_to_summarize)`: builds the fixed
prompt around the text, invokes the model, and returns the text of the
first content segment of the decoded body.  A missing `content` key
makes the subscript raise `TypeError`, an empty `content` list raises
`IndexError`, and any exception from the call itself is re-raised.  The
first component is the prompt it sends. -/
def invoke_bedrock_model (oracle : BedrockOutcome)
    (text_to_summarize : String) : String × Except String (Option String) :=
  (("Human: 以下のSlackの投稿を、重要なポイントを箇条書きで簡潔に要約してください。\n\n<投稿内容>\n"
      ++ text_to_summarize ++ "\n</投稿内容>\n\nAssistant:"),
    match oracle with
    | .raises e => .error e
    | .ok body =>
      match body.content with
      | none => .error "NoneType object is not subscriptable"
      | some [] => .error "list index out of range"
      | some (seg :: _) => .ok seg.text)

/-- Function `post_message_to_slack(channel_id, text)`: calls
`chat_postMessage(channel=channel_id, text=text)` and re-raises a
`SlackApiError`.  The first component is the request it sends. -/
def post_message_to_slack (oracle : PostOutcome) (channel_id : String)
    (text : String) : PostRequest × Except String Unit :=
  (⟨channel_id, text⟩,
    match oracle with
    | .ok => .ok ()
    | .apiError e => .error e)

/-! ## The handler -/

def INPUT_CHANNEL_ID : String := "C091S67LDEJ"
def OUTPUT_CHANNEL_ID : String := "C09344CE82C"

/-- Requests that one invocation sent to the external services:
the history fetch always happens; the prompt and the post request are
`none` when the corresponding call was never made. -/
structure Trace where
  fetchRequest : HistoryRequest
  bedrockPrompt : Option String
  postRequest : Option PostRequest
deriving DecidableEq

/-- The dict the handler returns, with keys statusCode and body. -/
structure HandlerResult where
  statusCode : Nat
  body : String
deriving DecidableEq

/-- Function `lambda_handler(event, context)`: fetch, summarize, post,
in order, with every exception caught at the top and turned into a 500
result.  The check `if not message_text:` makes both an empty channel
and an empty-string message take the no-op branch. -/
def lambda_handler (w : World) : HandlerResult × Trace :=
  let fetch := get_latest_message_from_slack w.history INPUT_CHANNEL_ID
  match fetch.2 with
  | .error e =>
      (⟨500, json_dumps ("An error occurred: " ++ e)⟩, ⟨fetch.1, none, none⟩)
  | .ok none =>
      (⟨200, json_dumps "No new messages to process."⟩, ⟨fetch.1, none, none⟩)
  | .ok (some message_text) =>
      if message_text == "" then
        (⟨200, json_dumps "No new messages to process."⟩, ⟨fetch.1, none, none⟩)
      else
        let bed := invoke_bedrock_model w.bedrock message_text
        match bed.2 with
        | .error e =>
            (⟨500, json_dumps ("An error occurred: " ++ e)⟩,
              ⟨fetch.1, some bed.1, none⟩)
        | .ok summary =>
            let result_text := "【AIによる要約】\n>>> " ++ py_str summary
            let posted := post_message_to_slack w.post OUTPUT_CHANNEL_ID result_text
            match posted.2 with
            | .error e =>
                (⟨500, json_dumps ("An error occurred: " ++ e)⟩,
                  ⟨fetch.1, some bed.1, some posted.1⟩)
            | .ok _ =>
                (⟨200, json_dumps "Successfully processed message."⟩,
                  ⟨fetch.1, some bed.1, some posted.1⟩)

/-! ## Module initialization -/

/-- The module-level `try: slack_bot_token = os.environ["SLACK_BOT_TOKEN"]`
block: a missing variable raises before any handler can run. -/
def module_init (environ : String → Option String) : Except String String :=
  match environ "SLACK_BOT_TOKEN" with
  | some tok => .ok tok
  | none => .error "環境変数 `SLACK_BOT_TOKEN` が設定されていません。"

/-- A process lifetime: initialization once, then any number of warm
invocations, none of which reads the environment again. -/
def run_process (environ : String → Option String) (ws : List World) :
    Except String (List (HandlerResult × Trace)) :=
  match module_init environ with
  | .error e => .error e
  | .ok _ => .ok (ws.map lambda_handler)

/-- Worlds in which one of the three steps of the handler raises an
exception whose description is `e`: the fetch fails; or the fetch yields
a non-empty message text and the Bedrock call fails; or those two
succeed and the post fails. -/
inductive RaisedError : World → String → Prop
  | fetch (w : World) (e : String) :
      w.history = .apiError e → RaisedError w e
  | bedrock (w : World) (e msg : String) (rest : List SlackMessage) :
      w.history = .ok (⟨msg⟩ :: rest) → msg ≠ "" →
      (invoke_bedrock_model w.bedrock msg).2 = .error e → RaisedError w e
  | post (w : World) (e msg : String) (rest : List SlackMessage) (s : Option String) :
      w.history = .ok (⟨msg⟩ :: rest) → msg ≠ "" →
      (invoke_bedrock_model w.bedrock msg).2 = .ok s → w.post = .apiError e →
      RaisedError w e

/-! ## Helper lemmas -/

theorem toList_append (s t : String) : (s ++ t).toList = s.toList ++ t.toList := by
  simp [String.toList, String.data_append]

/-- Evaluation of the handler on the path where a non-empty message is
fetched and the Bedrock call succeeds: the posted text is the fixed
template around the summary, and the outcome depends only on whether the
post call succeeds. -/
theorem lambda_handler_success (bed : BedrockOutcome) (post : PostOutcome)
    (msg : String) (rest : List SlackMessage) (s : Option String)
    (h1 : msg ≠ "") (h2 : (invoke_bedrock_model bed msg).2 = .ok s) :
    lambda_handler ⟨.ok (⟨msg⟩ :: rest), bed, post⟩ =
      ((match post with
        | .ok => ⟨200, json_dumps "Successfully processed message."⟩
        | .apiError e => ⟨500, json_dumps ("An error occurred: " ++ e)⟩),
       ⟨⟨INPUT_CHANNEL_ID, 1, true⟩,
        some (invoke_bedrock_model bed msg).1,
        some ⟨OUTPUT_CHANNEL_ID, "【AIによる要約】\n>>> " ++ py_str s⟩⟩) := by
  have h1' : (msg == "") = false := beq_eq_false_iff_ne.mpr h1
  cases post <;>
    simp [lambda_handler, get_latest_message_from_slack,
          post_message_to_slack, h1', h2]

/-! ## Claims -/

/-- C1, counterexample: in the invocation where the fetch raises with
description `a"b`, the handler does return status 500, but the body does
not embed the description: `json.dumps` escapes the quote character, so
the exact description string is not a substring of the body. -/
theorem C1_counterexample :
    (lambda_handler ⟨.apiError "a\"b", .raises "unused", .ok⟩).1.statusCode = 500 ∧
    ¬ (("a\"b").toList <:+:
       (lambda_handler ⟨.apiError "a\"b", .raises "unused", .ok⟩).1.body.toList) := by
  decide

/-- C1, amended: any exception raised during the fetch, summarize, or
post steps is caught at the top level — `lambda_handler` (a total
function here) returns status 500, with body the JSON string encoding of
the text `An error occurred: ` followed by the description, so the
description appears JSON-escaped rather than always verbatim. -/
theorem C1_error_outcome (w : World) (e : String) (h : RaisedError w e) :
    (lambda_handler w).1 = ⟨500, json_dumps ("An error occurred: " ++ e)⟩ := by
  obtain ⟨hist, bed, post⟩ := w
  cases h with
  | fetch h1 =>
      subst h1
      rfl
  | bedrock msg rest h1 h2 h3 =>
      subst h1
      have h2' : (msg == "") = false := beq_eq_false_iff_ne.mpr h2
      simp [lambda_handler, get_latest_message_from_slack, h2', h3]
  | post msg rest s h1 h2 h3 h4 =>
      subst h1
      subst h4
      have h2' : (msg == "") = false := beq_eq_false_iff_ne.mpr h2
      simp [lambda_handler, get_latest_message_from_slack,
            post_message_to_slack, h2', h3]

/-- C1, witness for the amended theorem at a concrete world whose fetch
raises with description `boom`. -/
theorem C1_witness :
    (lambda_handler ⟨.apiError "boom", .raises "unused", .ok⟩).1 =
      ⟨500, json_dumps ("An error occurred: " ++ "boom")⟩ :=
  C1_error_outcome ⟨.apiError "boom", .raises "unused", .ok⟩ "boom"
    (RaisedError.fetch _ _ rfl)

/-- C2, counterexample: on an empty channel the handler does return
status 200 and makes neither the Bedrock nor the post call, but the body
is not the bare string `No new messages to process.` — `json.dumps`
wraps it in quote characters. -/
theorem C2_counterexample :
    (lambda_handler ⟨.ok [], .raises "unused", .ok⟩).1.statusCode = 200 ∧
    (lambda_handler ⟨.ok [], .raises "unused", .ok⟩).2.bedrockPrompt = none ∧
    (lambda_handler ⟨.ok [], .raises "unused", .ok⟩).2.postRequest = none ∧
    (lambda_handler ⟨.ok [], .raises "unused", .ok⟩).1.body ≠
      "No new messages to process." := by
  decide

/-- C2, amended: when the fetch returns no message, the handler returns
status 200 with body the JSON-encoded string (quote characters included)
`"No new messages to process."`, and neither the Bedrock call nor the
post call is made. -/
theorem C2_noop_outcome (w : World) (h : w.history = .ok []) :
    lambda_handler w =
      (⟨200, "\"No new messages to process.\""⟩,
       ⟨⟨INPUT_CHANNEL_ID, 1, true⟩, none, none⟩) := by
  obtain ⟨hist, bed, post⟩ := w
  subst h
  rfl

/-- C2, witness for the amended theorem at a concrete empty channel. -/
theorem C2_witness :
    lambda_handler ⟨.ok [], .raises "unused", .apiError "unused2"⟩ =
      (⟨200, "\"No new messages to process.\""⟩,
       ⟨⟨INPUT_CHANNEL_ID, 1, true⟩, none, none⟩) :=
  C2_noop_outcome ⟨.ok [], .raises "unused", .apiError "unused2"⟩ rfl

/-- C3: when the fetched message text is `Team shipped v2 today.` and
the Bedrock call returns the summary `- Shipped v2`, the text posted to
the output channel is exactly the fixed prefix, a newline, `>>> `, then
the summary verbatim. -/
theorem C3_posted_text (w : World) (rest : List SlackMessage)
    (h1 : w.history = .ok (⟨"Team shipped v2 today."⟩ :: rest))
    (h2 : (invoke_bedrock_model w.bedrock "Team shipped v2 today.").2 =
      .ok (some "- Shipped v2")) :
    (lambda_handler w).2.postRequest =
      some ⟨OUTPUT_CHANNEL_ID, "【AIによる要約】\n>>> - Shipped v2"⟩ := by
  obtain ⟨hist, bed, post⟩ := w
  subst h1
  cases post <;>
    simp [lambda_handler, get_latest_message_from_slack,
          post_message_to_slack, py_str, h2]

/-- C3, witness at a concrete world realizing the scenario. -/
theorem C3_witness :
    (lambda_handler ⟨.ok [⟨"Team shipped v2 today."⟩],
        .ok ⟨some [⟨some "- Shipped v2"⟩]⟩, .ok⟩).2.postRequest =
      some ⟨OUTPUT_CHANNEL_ID, "【AIによる要約】\n>>> - Shipped v2"⟩ :=
  C3_posted_text ⟨.ok [⟨"Team shipped v2 today."⟩],
    .ok ⟨some [⟨some "- Shipped v2"⟩]⟩, .ok⟩ [] rfl rfl

/-- C4: when the fetch raises a transport error, the handler returns
status 500 and the Bedrock client is never called. -/
theorem C4_fetch_error (w : World) (e : String) (h : w.history = .apiError e) :
    (lambda_handler w).1.statusCode = 500 ∧
    (lambda_handler w).2.bedrockPrompt = none := by
  obtain ⟨hist, bed, post⟩ := w
  subst h
  exact ⟨rfl, rfl⟩

/-- C4, witness at a concrete world whose fetch raises. -/
theorem C4_witness :
    (lambda_handler ⟨.apiError "transport", .ok ⟨none⟩, .ok⟩).1.statusCode = 500 ∧
    (lambda_handler ⟨.apiError "transport", .ok ⟨none⟩, .ok⟩).2.bedrockPrompt = none :=
  C4_fetch_error ⟨.apiError "transport", .ok ⟨none⟩, .ok⟩ "transport" rfl

/-- C5: when the fetch yields a (non-empty) message and the Bedrock call
raises, the handler returns status 500 and the post step is never
called. -/
theorem C5_bedrock_error (w : World) (msg e : String) (rest : List SlackMessage)
    (h1 : w.history = .ok (⟨msg⟩ :: rest)) (h2 : msg ≠ "")
    (h3 : (invoke_bedrock_model w.bedrock msg).2 = .error e) :
    (lambda_handler w).1.statusCode = 500 ∧
    (lambda_handler w).2.postRequest = none := by
  obtain ⟨hist, bed, post⟩ := w
  subst h1
  have h2' : (msg == "") = false := beq_eq_false_iff_ne.mpr h2
  simp [lambda_handler, get_latest_message_from_slack, h2', h3]

/-- C5, witness at a concrete world whose Bedrock call raises. -/
theorem C5_witness :
    (lambda_handler ⟨.ok [⟨"hi"⟩], .raises "invocation error", .ok⟩).1.statusCode = 500 ∧
    (lambda_handler ⟨.ok [⟨"hi"⟩], .raises "invocation error", .ok⟩).2.postRequest = none :=
  C5_bedrock_error ⟨.ok [⟨"hi"⟩], .raises "invocation error", .ok⟩ "hi"
    "invocation error" [] rfl (by decide) rfl

/-- C6: a process whose environment lacks SLACK_BOT_TOKEN fails at
module initialization, before any invocation runs; and with the token
present, the invocation results never depend on the environment again —
the token is read once, at startup, not per invocation. -/
theorem C6_token_startup (ws : List World) :
    (∀ environ : String → Option String, environ "SLACK_BOT_TOKEN" = none →
      run_process environ ws =
        .error "環境変数 `SLACK_BOT_TOKEN` が設定されていません。") ∧
    (∀ env₁ env₂ : String → Option String, ∀ t₁ t₂ : String,
      env₁ "SLACK_BOT_TOKEN" = some t₁ → env₂ "SLACK_BOT_TOKEN" = some t₂ →
      run_process env₁ ws = run_process env₂ ws) := by
  constructor
  · intro environ h
    simp [run_process, module_init, h]
  · intro env₁ env₂ t₁ t₂ h₁ h₂
    simp [run_process, module_init, h₁, h₂]

/-- C6, witness: a concrete empty environment fails at startup with the
configuration error. -/
theorem C6_witness :
    run_process (fun _ => none) [] =
      .error "環境変数 `SLACK_BOT_TOKEN` が設定されていません。" :=
  (C6_token_startup []).1 (fun _ => none) rfl

/-- C7, counterexample: on a fully successful invocation the status is
200 and a message was posted, but the body is not the bare string
`Successfully processed message.` — `json.dumps` wraps it in quote
characters, so the body has two extra characters. -/
theorem C7_counterexample :
    (lambda_handler ⟨.ok [⟨"hi"⟩], .ok ⟨some [⟨some "sum"⟩]⟩, .ok⟩).1.statusCode = 200 ∧
    (lambda_handler ⟨.ok [⟨"hi"⟩], .ok ⟨some [⟨some "sum"⟩]⟩, .ok⟩).2.postRequest ≠ none ∧
    (lambda_handler ⟨.ok [⟨"hi"⟩], .ok ⟨some [⟨some "sum"⟩]⟩, .ok⟩).1.body ≠
      "Successfully processed message." := by
  decide

/-- C7, amended: when a message is fetched, summarized, and posted
without any exception, the handler returns status 200 with body the
JSON-encoded string (quote characters included)
`"Successfully processed message."`. -/
theorem C7_success_result (w : World) (msg : String) (rest : List SlackMessage)
    (s : Option String)
    (h1 : w.history = .ok (⟨msg⟩ :: rest)) (h2 : msg ≠ "")
    (h3 : (invoke_bedrock_model w.bedrock msg).2 = .ok s)
    (h4 : w.post = .ok) :
    (lambda_handler w).1 = ⟨200, "\"Successfully processed message.\""⟩ := by
  obtain ⟨hist, bed, post⟩ := w
  subst h1
  subst h4
  rw [lambda_handler_success bed .ok msg rest s h2 h3]
  rfl

/-- C7, witness for the amended theorem at a concrete successful
invocation. -/
theorem C7_witness :
    (lambda_handler ⟨.ok [⟨"hi"⟩], .ok ⟨some [⟨some "sum"⟩]⟩, .ok⟩).1 =
      ⟨200, "\"Successfully processed message.\""⟩ :=
  C7_success_result ⟨.ok [⟨"hi"⟩], .ok ⟨some [⟨some "sum"⟩]⟩, .ok⟩ "hi" []
    (some "sum") rfl (by decide) rfl rfl

/-- C8: when the fetched latest message text is `Hello` and the Bedrock
call returns a summary, the fetch request asks for at most one message,
the Bedrock prompt contains `Hello`, and the posted message starts with
the fixed prefix and contains the returned summary verbatim. -/
theorem C8_hello_flow (w : World) (rest : List SlackMessage) (s : String)
    (h1 : w.history = .ok (⟨"Hello"⟩ :: rest))
    (h2 : (invoke_bedrock_model w.bedrock "Hello").2 = .ok (some s)) :
    (lambda_handler w).2.fetchRequest.limit ≤ 1 ∧
    (∃ p, (lambda_handler w).2.bedrockPrompt = some p ∧
      "Hello".toList <:+: p.toList) ∧
    (∃ t, (lambda_handler w).2.postRequest = some ⟨OUTPUT_CHANNEL_ID, t⟩ ∧
      "【AIによる要約】".toList <+: t.toList ∧ s.toList <:+: t.toList) := by
  obtain ⟨hist, bed, post⟩ := w
  subst h1
  rw [lambda_handler_success bed post "Hello" rest (some s) (by decide) h2]
  refine ⟨Nat.le_refl 1, ⟨(invoke_bedrock_model bed "Hello").1, rfl, ?_⟩,
    ⟨"【AIによる要約】\n>>> " ++ py_str (some s), rfl, ?_, ?_⟩⟩
  · show "Hello".toList <:+:
      ("Human: 以下のSlackの投稿を、重要なポイントを箇条書きで簡潔に要約してください。\n\n<投稿内容>\n"
        ++ "Hello" ++ "\n</投稿内容>\n\nAssistant:").toList
    refine ⟨"Human: 以下のSlackの投稿を、重要なポイントを箇条書きで簡潔に要約してください。\n\n<投稿内容>\n".toList,
      "\n</投稿内容>\n\nAssistant:".toList, ?_⟩
    simp [toList_append]
  · refine ⟨"\n>>> ".toList ++ s.toList, ?_⟩
    rw [show ("【AIによる要約】\n>>> " : String) = "【AIによる要約】" ++ "\n>>> " from rfl]
    simp [toList_append, py_str]
  · refine ⟨"【AIによる要約】\n>>> ".toList, [], ?_⟩
    simp [toList_append, py_str]

/-- C8, witness at a concrete world realizing the scenario. -/
theorem C8_witness :
    (lambda_handler ⟨.ok [⟨"Hello"⟩], .ok ⟨some [⟨some "- greeting"⟩]⟩, .ok⟩).2.fetchRequest.limit ≤ 1 ∧
    (∃ p, (lambda_handler ⟨.ok [⟨"Hello"⟩], .ok ⟨some [⟨some "- greeting"⟩]⟩, .ok⟩).2.bedrockPrompt = some p ∧
      "Hello".toList <:+: p.toList) ∧
    (∃ t, (lambda_handler ⟨.ok [⟨"Hello"⟩], .ok ⟨some [⟨some "- greeting"⟩]⟩, .ok⟩).2.postRequest =
        some ⟨OUTPUT_CHANNEL_ID, t⟩ ∧
      "【AIによる要約】".toList <+: t.toList ∧ "- greeting".toList <:+: t.toList) :=
  C8_hello_flow ⟨.ok [⟨"Hello"⟩], .ok ⟨some [⟨some "- greeting"⟩]⟩, .ok⟩ []
    "- greeting" rfl rfl

/-- C9: when the decoded Bedrock response body has a non-empty content
list whose first segment carries a text field, `invoke_bedrock_model`
returns exactly that first text segment; when the content field is
missing, or the call itself raises (transport failure or a response that
fails to decode), it raises instead of returning. -/
theorem C9_bedrock_extraction (text : String) :
    (∀ (s : String) (rest : List BedrockContentSegment),
      (invoke_bedrock_model (.ok ⟨some (⟨some s⟩ :: rest)⟩) text).2 = .ok (some s)) ∧
    (invoke_bedrock_model (.ok ⟨none⟩) text).2 =
      .error "NoneType object is not subscriptable" ∧
    (∀ e, (invoke_bedrock_model (.raises e) text).2 = .error e) :=
  ⟨fun _ _ => rfl, rfl, fun _ => rfl⟩

/-- C10: a fetched message whose text is the empty string takes the
no-op branch exactly as an empty channel does: the handler result is
identical to the empty-channel result — status 200, no-op body, and no
Bedrock or post call. -/
theorem C10_empty_text_noop (w : World) (rest : List SlackMessage)
    (h : w.history = .ok (⟨""⟩ :: rest)) :
    lambda_handler w = lambda_handler ⟨.ok [], w.bedrock, w.post⟩ ∧
    (lambda_handler w).1.statusCode = 200 ∧
    (lambda_handler w).1.body = json_dumps "No new messages to process." ∧
    (lambda_handler w).2.bedrockPrompt = none ∧
    (lambda_handler w).2.postRequest = none := by
  obtain ⟨hist, bed, post⟩ := w
  subst h
  exact ⟨rfl, rfl, rfl, rfl, rfl⟩

/-- C10, witness at a concrete world whose latest message has empty
text. -/
theorem C10_witness :
    lambda_handler ⟨.ok [⟨""⟩], .raises "unused", .apiError "unused2"⟩ =
      lambda_handler ⟨.ok [], .raises "unused", .apiError "unused2"⟩ ∧
    (lambda_handler ⟨.ok [⟨""⟩], .raises "unused", .apiError "unused2"⟩).1.statusCode = 200 ∧
    (lambda_handler ⟨.ok [⟨""⟩], .raises "unused", .apiError "unused2"⟩).1.body =
      json_dumps "No new messages to process." ∧
    (lambda_handler ⟨.ok [⟨""⟩], .raises "unused", .apiError "unused2"⟩).2.bedrockPrompt = none ∧
    (lambda_handler ⟨.ok [⟨""⟩], .raises "unused", .apiError "unused2"⟩).2.postRequest = none :=
  C10_empty_text_noop ⟨.ok [⟨""⟩], .raises "unused", .apiError "unused2"⟩ [] rfl

end SlackQaSummary
